import Mathlib

/-!
Shallow embedding of the Routes API backend (`main.py`, `schemas.py`).

Modelling conventions:
* Python floats are modelled as real numbers (`ℝ`).
* Python dicts keyed by strings are modelled as association lists
  `List (String × _)` in insertion order; `dictInsert` reproduces dict
  assignment (update-in-place for an existing key, append for a new one).
* Python's `str.upper()` / `str.strip()` are modelled character-wise over the
  string's character list (ASCII case mapping, as relevant for IATA codes).
* The HTTP fetch in `load_airports_from_ourairports` is modelled by an
  `Option (List Row)` argument: `none` is any failure (network error, timeout,
  non-success status — the `except` path), `some rows` is the parsed CSV.
* `float(...)` parsing of CSV cells is abstracted by a `String → Option ℝ`
  parameter; `float(None)` raising `TypeError` is `Option.bind` over an
  absent cell.
* `raise HTTPException(404)` is modelled by an `Option` result: `none` is the
  Not-Found signal.
* Python's stable `list.sort(key=lambda x: x[0])` is modelled by
  `List.insertionSort` on the first component, which is also stable.
-/

/-- Python `str.upper()` (ASCII case mapping over the characters). -/
def strUpper (s : String) : String := ⟨s.data.map Char.toUpper⟩

/-- Python `str.strip()`: drop whitespace from both ends. -/
def pyStrip (s : String) : String :=
  ⟨((s.data.dropWhile Char.isWhitespace).reverse.dropWhile Char.isWhitespace).reverse⟩

/-- The normalized airport record stored in the `AIRPORTS` registry:
`{"name": …, "city": …, "country": …, "lat": …, "lng": …}`. -/
structure AirportRec where
  name : String
  city : String
  country : String
  lat : ℝ
  lng : ℝ

/-- One row of the OurAirports CSV as produced by `csv.DictReader`:
`row.get(col)` yields an optional cell value. Only the columns the loader
reads are modelled. -/
structure Row where
  iata_code : Option String
  type : Option String
  name : Option String
  latitude_deg : Option String
  longitude_deg : Option String
  iso_country : Option String
  municipality : Option String

/-- Degrees to radians (`math.radians`). -/
noncomputable def radians (deg : ℝ) : ℝ := deg * Real.pi / 180

/-- Distance function `haversine_km(a, b)` from `main.py` (locals inlined):
`R = 6371.0`, `dlat = lat2 - lat1`, `dlon = lon2 - lon1`,
`h = sin(dlat/2)^2 + cos(lat1)*cos(lat2)*sin(dlon/2)^2`,
result `2 * R * asin(sqrt(h))`. -/
noncomputable def haversine_km (a b : ℝ × ℝ) : ℝ :=
  2 * 6371.0 * Real.arcsin (Real.sqrt (
    Real.sin ((radians b.1 - radians a.1) / 2) ^ 2 +
    Real.cos (radians a.1) * Real.cos (radians b.1) *
      Real.sin ((radians b.2 - radians a.2) / 2) ^ 2))

/-- Fallback table `FALLBACK_AIRPORTS`: the curated 4-airport table used when OurAirports is
unreachable. -/
noncomputable def FALLBACK_AIRPORTS : List (String × AirportRec) :=
  [("JFK", ⟨"John F. Kennedy International", "New York", "US", 40.6413, -73.7781⟩),
   ("LHR", ⟨"London Heathrow", "London", "GB", 51.4700, -0.4543⟩),
   ("CDG", ⟨"Paris Charles de Gaulle", "Paris", "FR", 49.0097, 2.5479⟩),
   ("DXB", ⟨"Dubai International", "Dubai", "AE", 25.2532, 55.3657⟩)]

/-- Static demo route table `ROUTES`. -/
def ROUTES : List (String × List String) :=
  [("JFK", ["LHR", "CDG", "DXB"]),
   ("LHR", ["JFK", "CDG", "DXB"]),
   ("CDG", ["JFK", "LHR", "DXB"]),
   ("DXB", ["JFK", "LHR", "CDG"])]

/-- Python dict assignment `m[k] = v` on an insertion-ordered dict:
replace in place when `k` is present, append otherwise. -/
def dictInsert (m : List (String × AirportRec)) (k : String) (v : AirportRec) :
    List (String × AirportRec) :=
  if m.any (fun p => p.1 == k) then
    m.map (fun p => if p.1 == k then (k, v) else p)
  else
    m ++ [(k, v)]

/-- The row loop of `load_airports_from_ourairports`, processing rows in
stream order into the accumulated dict `airports`. Mirrors the guards:
IATA (stripped, uppercased) must be non-empty, of length 3 and not `"\N"`;
the `type` must be `large_airport` or `medium_airport`; both coordinates must
parse as floats; then the record is stored and, when `max_airports` is set and
reached, the loop breaks. -/
def load_rows (parseFloat : String → Option ℝ) (max_airports : Option ℕ)
    (airports : List (String × AirportRec)) : List Row → List (String × AirportRec)
  | [] => airports
  | row :: rest =>
    let iata := strUpper (pyStrip (row.iata_code.getD ""))
    if iata = "" ∨ iata.length ≠ 3 ∨ iata = "\\N" then
      load_rows parseFloat max_airports airports rest
    else
      let t := pyStrip (row.type.getD "")
      if t = "large_airport" ∨ t = "medium_airport" then
        match row.latitude_deg.bind parseFloat, row.longitude_deg.bind parseFloat with
        | some lat_f, some lon_f =>
          let name := pyStrip (row.name.getD "")
          let iso_country := pyStrip (row.iso_country.getD "")
          let municipality := pyStrip (row.municipality.getD "")
          let airports' := dictInsert airports iata
            ⟨name, if municipality = "" then name else municipality, iso_country, lat_f, lon_f⟩
          match max_airports with
          | some m => if m ≤ airports'.length then airports' else
              load_rows parseFloat max_airports airports' rest
          | none => load_rows parseFloat max_airports airports' rest
        | _, _ => load_rows parseFloat max_airports airports rest
      else
        load_rows parseFloat max_airports airports rest

/-- Loader `load_airports_from_ourairports(max_airports)`: on any fetch/parse failure
(`fetch = none`) return the empty mapping; otherwise run the row loop starting
from the empty dict. -/
def load_airports_from_ourairports (parseFloat : String → Option ℝ)
    (fetch : Option (List Row)) (max_airports : Option ℕ) : List (String × AirportRec) :=
  match fetch with
  | none => []
  | some rows => load_rows parseFloat max_airports [] rows

/-- Registry population `ensure_airports_loaded()`: if the registry is already non-empty, keep it;
otherwise load the full dataset (no count cap) and fall back to
`FALLBACK_AIRPORTS` when the loader returns the empty mapping. -/
noncomputable def ensure_airports_loaded (parseFloat : String → Option ℝ)
    (fetch : Option (List Row)) (AIRPORTS : List (String × AirportRec)) :
    List (String × AirportRec) :=
  if AIRPORTS.isEmpty then
    let loaded := load_airports_from_ourairports parseFloat fetch none
    if loaded.isEmpty then FALLBACK_AIRPORTS else loaded
  else AIRPORTS

/-- The comparison `key=lambda x: x[0]` used to sort the `(distance, code)`
pairs in `nearest_connections`. -/
def distLE (a b : ℝ × String) : Prop := a.1 ≤ b.1

noncomputable instance : DecidableRel distLE :=
  fun a b => inferInstanceAs (Decidable (a.1 ≤ b.1))

instance : IsTotal (ℝ × String) distLE := ⟨fun a b => le_total a.1 b.1⟩

instance : IsTrans (ℝ × String) distLE := ⟨fun _ _ _ => le_trans⟩

/-- Nearest neighbours `nearest_connections(iata, k, max_distance_km)`: for every other airport
in the registry compute the haversine distance from `iata`'s coordinates,
optionally drop those beyond `max_distance_km`, sort ascending by distance
(stable) and return the first `k` codes. Returns `[]` when `iata` is not in
the registry. -/
noncomputable def nearest_connections (airports : List (String × AirportRec))
    (iata : String) (k : ℕ) (max_distance_km : Option ℝ) : List String :=
  match airports.lookup iata with
  | none => []
  | some src =>
    (((((airports.filter (fun p => p.1 ≠ iata)).map
        (fun p => (haversine_km (src.lat, src.lng) (p.2.lat, p.2.lng), p.1))).filter
        (fun d => match max_distance_km with
          | none => true
          | some m => decide (d.1 ≤ m))).insertionSort distLE).take k).map Prod.snd

/-- Response shaping `{"iata": c, **AIRPORTS[c]}`: resolve a code to its registry record,
keyed by the code. -/
def resolve (airports : List (String × AirportRec)) (c : String) :
    Option (String × AirportRec) :=
  (airports.lookup c).map (fun r => (c, r))

/-- Handler `GET /routes/{iata}` (`get_routes`), after `ensure_airports_loaded`, on a
given registry state: uppercase the code, 404 (`none`) when absent; otherwise
prefer the static routes filtered to registry membership and fall back to the
8 nearest connections when that filtered list is empty. The result pairs the
source airport with its resolved connections. -/
noncomputable def get_routes (airports : List (String × AirportRec)) (iata0 : String) :
    Option ((String × AirportRec) × List (String × AirportRec)) :=
  match airports.lookup (strUpper iata0) with
  | none => none
  | some rec =>
    let route_codes := ((ROUTES.lookup (strUpper iata0)).getD []).filter
      (fun c => (airports.lookup c).isSome)
    let route_codes := if route_codes.isEmpty then
        nearest_connections airports (strUpper iata0) 8 none
      else route_codes
    some ((strUpper iata0, rec), route_codes.filterMap (resolve airports))

/-- Handler `GET /destination/{iata}` (`destination_summary`) on a given registry
state: uppercase the code, 404 (`none`) when absent; otherwise return the
airport together with the three derived link strings (flights, hotels,
wikipedia). -/
noncomputable def destination_summary (airports : List (String × AirportRec))
    (iata0 : String) : Option ((String × AirportRec) × (String × String × String)) :=
  match airports.lookup (strUpper iata0) with
  | none => none
  | some rec =>
    some ((strUpper iata0, rec),
      ("https://www.google.com/travel/flights?q=Flights%20to%20" ++ strUpper iata0,
       "https://www.google.com/travel/hotels/" ++ (rec.city.replace " " "%20"),
       "https://en.wikipedia.org/wiki/" ++ (rec.city.replace " " "_")))

/-- Handler `GET /airports` (`list_airports`) on a given registry state:
`[{"iata": code, **AIRPORTS[code]} for code in sorted(AIRPORTS.keys())]`. -/
noncomputable def list_airports (airports : List (String × AirportRec)) :
    List (String × AirportRec) :=
  (List.insertionSort (· ≤ ·) (airports.map Prod.fst)).filterMap (resolve airports)

/-- The request body of `POST /reviews` (`ReviewIn`): unconstrained fields. -/
structure ReviewIn where
  airport_iata : String
  name : String
  rating : ℤ
  comment : Option String

/-- The validation performed by constructing `schemas.Review`:
`airport_iata` of length exactly 3 (`min_length=3, max_length=3`), `name` of
length 1–80, `rating` in 1–5, optional `comment` of length ≤ 1000. -/
def reviewValid (r : ReviewIn) : Bool :=
  (3 ≤ r.airport_iata.length && r.airport_iata.length ≤ 3) &&
  (1 ≤ r.name.length && r.name.length ≤ 80) &&
  (1 ≤ r.rating && r.rating ≤ 5) &&
  (match r.comment with
   | none => true
   | some c => c.length ≤ 1000)

/-- Outcome of `POST /reviews` (`add_review`): either the Review Store's
`create_document("review", r)` was invoked with the validated review, or
constructing `schemas.Review` raised a validation error first. -/
inductive AddReviewResult where
  | created (r : ReviewIn)
  | validationError

/-- Handler `add_review(review)`: `Review(**review.model_dump())` validates the body;
only when validation succeeds is `create_document` called. -/
def add_review (r : ReviewIn) : AddReviewResult :=
  if reviewValid r then .created r else .validationError

/-! ### Helper lemmas -/

theorem charOfNat_toNat_valid (m : Nat) (h : m.isValidChar) :
    (Char.ofNat m).toNat = m := by
  rw [Char.ofNat, dif_pos h]
  rfl

theorem charToUpper_idem (c : Char) : Char.toUpper (Char.toUpper c) = Char.toUpper c := by
  unfold Char.toUpper
  by_cases h : 97 ≤ c.toNat ∧ c.toNat ≤ 122
  · rw [if_pos h]
    have hv : (c.toNat - 32).isValidChar := by
      left
      omega
    have ht : (Char.ofNat (c.toNat - 32)).toNat = c.toNat - 32 :=
      charOfNat_toNat_valid _ hv
    rw [if_neg]
    rw [ht]
    omega
  · rw [if_neg h, if_neg h]

theorem strUpper_idem (s : String) : strUpper (strUpper s) = strUpper s := by
  have hfun : Char.toUpper ∘ Char.toUpper = Char.toUpper := funext charToUpper_idem
  simp only [strUpper, List.map_map, hfun]

theorem lookup_eq_some_of_mem {l : List (String × AirportRec)} {k : String}
    {v : AirportRec} (hnd : (l.map Prod.fst).Nodup) (hm : (k, v) ∈ l) :
    l.lookup k = some v := by
  induction l with
  | nil => exact absurd hm (List.not_mem_nil _)
  | cons p rest ih =>
    obtain ⟨k', v'⟩ := p
    rw [List.map_cons, List.nodup_cons] at hnd
    rcases List.mem_cons.mp hm with h | h
    · obtain ⟨rfl, rfl⟩ := Prod.mk.injEq .. ▸ h
      exact List.lookup_cons_self
    · have hk : k ≠ k' := by
        rintro rfl
        exact hnd.1 (List.mem_map.mpr ⟨(k, v), h, rfl⟩)
      have hbeq : (k == k') = false := beq_eq_false_iff_ne.mpr hk
      rw [List.lookup_cons, hbeq]
      exact ih hnd.2 h

theorem mem_of_lookup_eq_some {l : List (String × AirportRec)} {k : String}
    {v : AirportRec} (h : l.lookup k = some v) : (k, v) ∈ l := by
  induction l with
  | nil => exact absurd h (by simp)
  | cons p rest ih =>
    obtain ⟨k', v'⟩ := p
    rw [List.lookup_cons] at h
    by_cases hk : k = k'
    · subst hk
      rw [show (k == k) = true from beq_self_eq_true k] at h
      cases h
      exact List.mem_cons_self _ _
    · rw [show (k == k') = false from beq_eq_false_iff_ne.mpr hk] at h
      exact List.mem_cons_of_mem _ (ih h)

/-! ### C8 -/

/-- C8: the haversine great-circle distance is symmetric in its two
coordinate arguments. -/
theorem haversine_km_symm (a b : ℝ × ℝ) : haversine_km a b = haversine_km b a := by
  have key : ∀ x y : ℝ, Real.sin ((x - y) / 2) ^ 2 = Real.sin ((y - x) / 2) ^ 2 := by
    intro x y
    rw [show (x - y) / 2 = -((y - x) / 2) by ring, Real.sin_neg, neg_sq]
  unfold haversine_km
  rw [key (radians a.1) (radians b.1), key (radians a.2) (radians b.2),
    mul_comm (Real.cos (radians b.1)) (Real.cos (radians a.1))]

/-! ### C9 -/

/-- C9: a review whose rating is outside 1–5 or whose airport code is not
exactly 3 characters fails `Review` validation, so `create_document` is never
invoked for it. -/
theorem add_review_rejects_invalid (r : ReviewIn)
    (h : ¬(1 ≤ r.rating ∧ r.rating ≤ 5) ∨ r.airport_iata.length ≠ 3) :
    add_review r = .validationError := by
  have hv : ¬ (reviewValid r = true) := by
    intro hval
    simp only [reviewValid, Bool.and_eq_true, decide_eq_true_eq] at hval
    obtain ⟨⟨⟨⟨h3a, h3b⟩, -⟩, hr1, hr5⟩, -⟩ := hval
    rcases h with h | h
    · exact h ⟨hr1, hr5⟩
    · exact h (Nat.le_antisymm h3b h3a)
  unfold add_review
  rw [if_neg hv]

theorem add_review_rejects_invalid_witness :
    (¬(1 ≤ (⟨"JFK", "Ana", 6, none⟩ : ReviewIn).rating ∧
        (⟨"JFK", "Ana", 6, none⟩ : ReviewIn).rating ≤ 5) ∨
      (⟨"JFK", "Ana", 6, none⟩ : ReviewIn).airport_iata.length ≠ 3) ∧
    add_review ⟨"JFK", "Ana", 6, none⟩ = .validationError :=
  ⟨by decide, add_review_rejects_invalid _ (by decide)⟩

/-! ### C6 -/

/-- C6: an IATA code absent from the registry (after uppercasing) makes
`GET /routes/{iata}` signal Not-Found (`none`), returning no connections. -/
theorem get_routes_not_found (airports : List (String × AirportRec)) (iata : String)
    (h : airports.lookup (strUpper iata) = none) :
    get_routes airports iata = none := by
  unfold get_routes
  rw [h]

theorem get_routes_not_found_witness :
    FALLBACK_AIRPORTS.lookup (strUpper "ZZZ") = none ∧
    get_routes FALLBACK_AIRPORTS "ZZZ" = none :=
  ⟨rfl, get_routes_not_found FALLBACK_AIRPORTS "ZZZ" rfl⟩

/-! ### C3 -/

/-- C3: when the remote fetch fails, the loader returns the empty mapping
(for any count cap), and `ensure_airports_loaded` on the empty registry then
adopts exactly the 4-entry fallback table with keys JFK, LHR, CDG, DXB. -/
theorem fallback_on_fetch_failure (parseFloat : String → Option ℝ) (m : Option ℕ) :
    load_airports_from_ourairports parseFloat none m = [] ∧
    ensure_airports_loaded parseFloat none [] = FALLBACK_AIRPORTS ∧
    FALLBACK_AIRPORTS.map Prod.fst = ["JFK", "LHR", "CDG", "DXB"] ∧
    FALLBACK_AIRPORTS.length = 4 :=
  ⟨rfl, rfl, rfl, rfl⟩

/-! ### C10 -/

/-- C10: the `/routes/{iata}` and `/destination/{iata}` handlers uppercase the
path parameter before consulting the registry, so any request behaves exactly
like the uppercased request. -/
theorem handlers_case_insensitive (airports : List (String × AirportRec)) (s : String) :
    get_routes airports s = get_routes airports (strUpper s) ∧
    destination_summary airports s = destination_summary airports (strUpper s) := by
  constructor
  · unfold get_routes
    rw [strUpper_idem]
  · unfold destination_summary
    rw [strUpper_idem]

/-! ### Resolution helpers -/

theorem map_fst_filterMap_resolve (airports : List (String × AirportRec))
    (cs : List String) (h : ∀ c ∈ cs, (airports.lookup c).isSome) :
    (cs.filterMap (resolve airports)).map Prod.fst = cs := by
  induction cs with
  | nil => rfl
  | cons c rest ih =>
    obtain ⟨r, hr⟩ := Option.isSome_iff_exists.mp (h c (List.mem_cons_self _ _))
    rw [List.filterMap_cons]
    have hres : resolve airports c = some (c, r) := by
      rw [resolve, hr]
      rfl
    rw [hres, List.map_cons, ih (fun c' hc' => h c' (List.mem_cons_of_mem _ hc'))]

theorem mem_filterMap_resolve {airports : List (String × AirportRec)}
    {cs : List String} {e : String × AirportRec}
    (h : e ∈ cs.filterMap (resolve airports)) :
    e.1 ∈ cs ∧ airports.lookup e.1 = some e.2 := by
  obtain ⟨c, hc, hr⟩ := List.mem_filterMap.mp h
  rw [resolve] at hr
  cases hl : airports.lookup c with
  | none =>
    rw [hl] at hr
    cases hr
  | some r =>
    rw [hl] at hr
    cases hr
    exact ⟨hc, hl⟩

/-! ### C7 -/

/-- C7: for every registry state (with the dict invariant of no duplicate
keys), `GET /airports` returns the records sorted ascending by IATA code with
no duplicate keys. -/
theorem list_airports_sorted_nodup (airports : List (String × AirportRec))
    (hnd : (airports.map Prod.fst).Nodup) :
    List.Sorted (· ≤ ·) ((list_airports airports).map Prod.fst) ∧
    ((list_airports airports).map Prod.fst).Nodup := by
  have hall : ∀ c ∈ List.insertionSort (· ≤ ·) (airports.map Prod.fst),
      (airports.lookup c).isSome := by
    intro c hc
    have hmem : c ∈ airports.map Prod.fst :=
      (List.perm_insertionSort (· ≤ ·) (airports.map Prod.fst)).mem_iff.mp hc
    obtain ⟨p, hp, hfst⟩ := List.mem_map.mp hmem
    exact List.lookup_isSome_iff.mpr ⟨p, hp, by simp [hfst]⟩
  have hkeys : (list_airports airports).map Prod.fst =
      List.insertionSort (· ≤ ·) (airports.map Prod.fst) :=
    map_fst_filterMap_resolve _ _ hall
  constructor
  · rw [hkeys]
    exact List.sorted_insertionSort _ _
  · rw [hkeys]
    exact (List.perm_insertionSort (· ≤ ·) (airports.map Prod.fst)).nodup_iff.mpr hnd

theorem list_airports_sorted_nodup_witness :
    (FALLBACK_AIRPORTS.map Prod.fst).Nodup ∧
    (List.Sorted (· ≤ ·) ((list_airports FALLBACK_AIRPORTS).map Prod.fst) ∧
     ((list_airports FALLBACK_AIRPORTS).map Prod.fst).Nodup) :=
  ⟨by decide, list_airports_sorted_nodup FALLBACK_AIRPORTS (by decide)⟩

/-! ### C4 -/

/-- C4: when the static route table entries for a registry code, filtered to
registry membership, are non-empty, `GET /routes/{iata}` returns exactly those
connections in table order, each resolved to its full registry record. -/
theorem get_routes_static (airports : List (String × AirportRec)) (iata : String)
    (src : AirportRec)
    (hup : strUpper iata = iata)
    (hsrc : airports.lookup iata = some src)
    (hne : ((ROUTES.lookup iata).getD []).filter
      (fun c => (airports.lookup c).isSome) ≠ []) :
    ∃ conns, get_routes airports iata = some ((iata, src), conns) ∧
      conns.map Prod.fst = ((ROUTES.lookup iata).getD []).filter
        (fun c => (airports.lookup c).isSome) ∧
      ∀ e ∈ conns, airports.lookup e.1 = some e.2 := by
  have hie : (((ROUTES.lookup iata).getD []).filter
      (fun c => (airports.lookup c).isSome)).isEmpty = false :=
    List.isEmpty_eq_false.mpr hne
  refine ⟨(((ROUTES.lookup iata).getD []).filter
      (fun c => (airports.lookup c).isSome)).filterMap (resolve airports), ?_, ?_, ?_⟩
  · unfold get_routes
    rw [hup, hsrc]
    simp only [hie, if_false, Bool.false_eq_true]
  · refine map_fst_filterMap_resolve _ _ ?_
    intro c hc
    exact (List.mem_filter.mp hc).2
  · intro e he
    exact (mem_filterMap_resolve he).2

theorem get_routes_static_witness :
    (strUpper "JFK" = "JFK" ∧
     FALLBACK_AIRPORTS.lookup "JFK" =
       some ⟨"John F. Kennedy International", "New York", "US", 40.6413, -73.7781⟩ ∧
     ((ROUTES.lookup "JFK").getD []).filter
       (fun c => (FALLBACK_AIRPORTS.lookup c).isSome) ≠ []) ∧
    (∃ conns, get_routes FALLBACK_AIRPORTS "JFK" =
        some (("JFK", ⟨"John F. Kennedy International", "New York", "US",
          40.6413, -73.7781⟩), conns) ∧
      conns.map Prod.fst = ((ROUTES.lookup "JFK").getD []).filter
        (fun c => (FALLBACK_AIRPORTS.lookup c).isSome) ∧
      ∀ e ∈ conns, FALLBACK_AIRPORTS.lookup e.1 = some e.2) :=
  ⟨⟨rfl, rfl, by decide⟩,
   get_routes_static FALLBACK_AIRPORTS "JFK" _ rfl rfl (by decide)⟩

/-! ### Loader provenance (C5) -/

theorem mem_dictInsert {m : List (String × AirportRec)} {k : String} {v : AirportRec}
    {e : String × AirportRec} (he : e ∈ dictInsert m k v) : e ∈ m ∨ e = (k, v) := by
  unfold dictInsert at he
  by_cases h : m.any (fun p => p.1 == k)
  · rw [if_pos h] at he
    obtain ⟨p, hp, hpe⟩ := List.mem_map.mp he
    by_cases hpk : p.1 == k
    · rw [if_pos hpk] at hpe
      right
      exact hpe.symm
    · rw [if_neg hpk] at hpe
      left
      exact hpe ▸ hp
  · rw [if_neg h] at he
    rcases List.mem_append.mp he with h1 | h1
    · left
      exact h1
    · right
      simpa using h1

/-- Provenance of a loader record: it passed the IATA-shape guard and came
from some row whose `type` is `large_airport`/`medium_airport` and whose two
coordinates parsed, carrying exactly those parsed coordinates. -/
def GoodEntry (parseFloat : String → Option ℝ) (rows : List Row)
    (e : String × AirportRec) : Prop :=
  e.1.length = 3 ∧ strUpper e.1 = e.1 ∧
  ∃ row ∈ rows, strUpper (pyStrip (row.iata_code.getD "")) = e.1 ∧
    (pyStrip (row.type.getD "") = "large_airport" ∨
     pyStrip (row.type.getD "") = "medium_airport") ∧
    row.latitude_deg.bind parseFloat = some e.2.lat ∧
    row.longitude_deg.bind parseFloat = some e.2.lng

theorem GoodEntry.mono {parseFloat : String → Option ℝ} {rows : List Row}
    {row : Row} {e : String × AirportRec} (h : GoodEntry parseFloat rows e) :
    GoodEntry parseFloat (row :: rows) e := by
  obtain ⟨h1, h2, r, hr, hrest⟩ := h
  exact ⟨h1, h2, r, List.mem_cons_of_mem _ hr, hrest⟩

theorem load_rows_mem (parseFloat : String → Option ℝ) (maxc : Option ℕ) :
    ∀ (rows : List Row) (acc : List (String × AirportRec)) (e : String × AirportRec),
      e ∈ load_rows parseFloat maxc acc rows →
      e ∈ acc ∨ GoodEntry parseFloat rows e := by
  intro rows
  induction rows with
  | nil =>
    intro acc e he
    exact Or.inl he
  | cons row rest ih =>
    intro acc e he
    rw [load_rows] at he
    by_cases h1 : strUpper (pyStrip (row.iata_code.getD "")) = "" ∨
        (strUpper (pyStrip (row.iata_code.getD ""))).length ≠ 3 ∨
        strUpper (pyStrip (row.iata_code.getD "")) = "\\N"
    · rw [if_pos h1] at he
      rcases ih acc e he with h | h
      · exact Or.inl h
      · exact Or.inr h.mono
    · rw [if_neg h1] at he
      by_cases h2 : pyStrip (row.type.getD "") = "large_airport" ∨
          pyStrip (row.type.getD "") = "medium_airport"
      · rw [if_pos h2] at he
        cases hlat : row.latitude_deg.bind parseFloat with
        | none =>
          rw [hlat] at he
          cases hlon : row.longitude_deg.bind parseFloat with
          | none =>
            rw [hlon] at he
            rcases ih acc e he with h | h
            · exact Or.inl h
            · exact Or.inr h.mono
          | some lon_f =>
            rw [hlon] at he
            rcases ih acc e he with h | h
            · exact Or.inl h
            · exact Or.inr h.mono
        | some lat_f =>
          rw [hlat] at he
          cases hlon : row.longitude_deg.bind parseFloat with
          | none =>
            rw [hlon] at he
            rcases ih acc e he with h | h
            · exact Or.inl h
            · exact Or.inr h.mono
          | some lon_f =>
            rw [hlon] at he
            have hgood : ∀ e', e' = (strUpper (pyStrip (row.iata_code.getD "")),
                (⟨pyStrip (row.name.getD ""),
                  if pyStrip (row.municipality.getD "") = "" then pyStrip (row.name.getD "")
                    else pyStrip (row.municipality.getD ""),
                  pyStrip (row.iso_country.getD ""), lat_f, lon_f⟩ : AirportRec)) →
                GoodEntry parseFloat (row :: rest) e' := by
              rintro e' rfl
              push_neg at h1
              refine ⟨h1.2.1, strUpper_idem _, row, List.mem_cons_self _ _, rfl, h2, ?_, ?_⟩
              · exact hlat
              · exact hlon
            cases maxc with
            | some m =>
              have he' : e ∈ (if m ≤ (dictInsert acc
                    (strUpper (pyStrip (row.iata_code.getD "")))
                    ⟨pyStrip (row.name.getD ""),
                      if pyStrip (row.municipality.getD "") = "" then pyStrip (row.name.getD "")
                        else pyStrip (row.municipality.getD ""),
                      pyStrip (row.iso_country.getD ""), lat_f, lon_f⟩).length
                  then dictInsert acc (strUpper (pyStrip (row.iata_code.getD "")))
                    ⟨pyStrip (row.name.getD ""),
                      if pyStrip (row.municipality.getD "") = "" then pyStrip (row.name.getD "")
                        else pyStrip (row.municipality.getD ""),
                      pyStrip (row.iso_country.getD ""), lat_f, lon_f⟩
                  else load_rows parseFloat (some m) (dictInsert acc
                    (strUpper (pyStrip (row.iata_code.getD "")))
                    ⟨pyStrip (row.name.getD ""),
                      if pyStrip (row.municipality.getD "") = "" then pyStrip (row.name.getD "")
                        else pyStrip (row.municipality.getD ""),
                      pyStrip (row.iso_country.getD ""), lat_f, lon_f⟩) rest) := he
              by_cases hm : m ≤ (dictInsert acc (strUpper (pyStrip (row.iata_code.getD "")))
                  ⟨pyStrip (row.name.getD ""),
                    if pyStrip (row.municipality.getD "") = "" then pyStrip (row.name.getD "")
                      else pyStrip (row.municipality.getD ""),
                    pyStrip (row.iso_country.getD ""), lat_f, lon_f⟩).length
              · rw [if_pos hm] at he'
                rcases mem_dictInsert he' with h | h
                · exact Or.inl h
                · exact Or.inr (hgood e h)
              · rw [if_neg hm] at he'
                rcases ih _ e he' with h | h
                · rcases mem_dictInsert h with h' | h'
                  · exact Or.inl h'
                  · exact Or.inr (hgood e h')
                · exact Or.inr h.mono
            | none =>
              have he' : e ∈ load_rows parseFloat none (dictInsert acc
                  (strUpper (pyStrip (row.iata_code.getD "")))
                  ⟨pyStrip (row.name.getD ""),
                    if pyStrip (row.municipality.getD "") = "" then pyStrip (row.name.getD "")
                      else pyStrip (row.municipality.getD ""),
                    pyStrip (row.iso_country.getD ""), lat_f, lon_f⟩) rest := he
              rcases ih _ e he' with h | h
              · rcases mem_dictInsert h with h' | h'
                · exact Or.inl h'
                · exact Or.inr (hgood e h')
              · exact Or.inr h.mono
      · rw [if_neg h2] at he
        rcases ih acc e he with h | h
        · exact Or.inl h
        · exact Or.inr h.mono

/-! ### C5 -/

/-- C5: every record the loader emits has a 3-character uppercase key and
stems from a surviving row: `type` in {large_airport, medium_airport} and both
coordinates parsed, with the parsed values stored; no partial entries exist. -/
theorem loader_records_valid (parseFloat : String → Option ℝ) (maxc : Option ℕ)
    (rows : List Row) (e : String × AirportRec)
    (he : e ∈ load_airports_from_ourairports parseFloat (some rows) maxc) :
    e.1.length = 3 ∧ strUpper e.1 = e.1 ∧
    ∃ row ∈ rows, strUpper (pyStrip (row.iata_code.getD "")) = e.1 ∧
      (pyStrip (row.type.getD "") = "large_airport" ∨
       pyStrip (row.type.getD "") = "medium_airport") ∧
      row.latitude_deg.bind parseFloat = some e.2.lat ∧
      row.longitude_deg.bind parseFloat = some e.2.lng := by
  rcases load_rows_mem parseFloat maxc rows [] e he with h | h
  · exact absurd h (List.not_mem_nil _)
  · exact h

theorem loader_records_valid_witness :
    (("JFK", (⟨"JFK Intl", "New York", "US", 0, 0⟩ : AirportRec)) ∈
      load_airports_from_ourairports (fun _ => some 0)
        (some [⟨some "JFK", some "large_airport", some "JFK Intl",
          some "40", some "-73", some "US", some "New York"⟩]) none) ∧
    ("JFK".length = 3 ∧ strUpper "JFK" = "JFK" ∧
     ∃ row ∈ [(⟨some "JFK", some "large_airport", some "JFK Intl",
          some "40", some "-73", some "US", some "New York"⟩ : Row)],
       strUpper (pyStrip (row.iata_code.getD "")) = "JFK" ∧
       (pyStrip (row.type.getD "") = "large_airport" ∨
        pyStrip (row.type.getD "") = "medium_airport") ∧
       row.latitude_deg.bind (fun _ => some (0 : ℝ)) =
         some (⟨"JFK Intl", "New York", "US", 0, 0⟩ : AirportRec).lat ∧
       row.longitude_deg.bind (fun _ => some (0 : ℝ)) =
         some (⟨"JFK Intl", "New York", "US", 0, 0⟩ : AirportRec).lng) := by
  have hload : load_airports_from_ourairports (fun _ => some (0 : ℝ))
      (some [⟨some "JFK", some "large_airport", some "JFK Intl",
        some "40", some "-73", some "US", some "New York"⟩]) none =
      [("JFK", (⟨"JFK Intl", "New York", "US", 0, 0⟩ : AirportRec))] := rfl
  have hmem : ("JFK", (⟨"JFK Intl", "New York", "US", 0, 0⟩ : AirportRec)) ∈
      load_airports_from_ourairports (fun _ => some (0 : ℝ))
        (some [⟨some "JFK", some "large_airport", some "JFK Intl",
          some "40", some "-73", some "US", some "New York"⟩]) none := by
    rw [hload]
    exact List.mem_cons_self _ _
  exact ⟨hmem, loader_records_valid (fun _ => some 0) none _ _ hmem⟩

/-! ### Branch equations for the loader loop (C2) -/

/-- The record stored for an accepted row with parsed coordinates. -/
def rowRecord (row : Row) (lat_f lon_f : ℝ) : AirportRec :=
  ⟨pyStrip (row.name.getD ""),
   if pyStrip (row.municipality.getD "") = "" then pyStrip (row.name.getD "")
     else pyStrip (row.municipality.getD ""),
   pyStrip (row.iso_country.getD ""), lat_f, lon_f⟩

theorem load_rows_skip_iata (pf : String → Option ℝ) (mc : Option ℕ)
    (acc : List (String × AirportRec)) (row : Row) (rest : List Row)
    (h1 : strUpper (pyStrip (row.iata_code.getD "")) = "" ∨
      (strUpper (pyStrip (row.iata_code.getD ""))).length ≠ 3 ∨
      strUpper (pyStrip (row.iata_code.getD "")) = "\\N") :
    load_rows pf mc acc (row :: rest) = load_rows pf mc acc rest := by
  rw [load_rows, if_pos h1]

theorem load_rows_skip_type (pf : String → Option ℝ) (mc : Option ℕ)
    (acc : List (String × AirportRec)) (row : Row) (rest : List Row)
    (h1 : ¬(strUpper (pyStrip (row.iata_code.getD "")) = "" ∨
      (strUpper (pyStrip (row.iata_code.getD ""))).length ≠ 3 ∨
      strUpper (pyStrip (row.iata_code.getD "")) = "\\N"))
    (h2 : ¬(pyStrip (row.type.getD "") = "large_airport" ∨
      pyStrip (row.type.getD "") = "medium_airport")) :
    load_rows pf mc acc (row :: rest) = load_rows pf mc acc rest := by
  rw [load_rows, if_neg h1, if_neg h2]

theorem load_rows_skip_lat (pf : String → Option ℝ) (mc : Option ℕ)
    (acc : List (String × AirportRec)) (row : Row) (rest : List Row)
    (h1 : ¬(strUpper (pyStrip (row.iata_code.getD "")) = "" ∨
      (strUpper (pyStrip (row.iata_code.getD ""))).length ≠ 3 ∨
      strUpper (pyStrip (row.iata_code.getD "")) = "\\N"))
    (h2 : pyStrip (row.type.getD "") = "large_airport" ∨
      pyStrip (row.type.getD "") = "medium_airport")
    (hlat : row.latitude_deg.bind pf = none) :
    load_rows pf mc acc (row :: rest) = load_rows pf mc acc rest := by
  rw [load_rows, if_neg h1, if_pos h2, hlat]

theorem load_rows_skip_lon (pf : String → Option ℝ) (mc : Option ℕ)
    (acc : List (String × AirportRec)) (row : Row) (rest : List Row) (lat_f : ℝ)
    (h1 : ¬(strUpper (pyStrip (row.iata_code.getD "")) = "" ∨
      (strUpper (pyStrip (row.iata_code.getD ""))).length ≠ 3 ∨
      strUpper (pyStrip (row.iata_code.getD "")) = "\\N"))
    (h2 : pyStrip (row.type.getD "") = "large_airport" ∨
      pyStrip (row.type.getD "") = "medium_airport")
    (hlat : row.latitude_deg.bind pf = some lat_f)
    (hlon : row.longitude_deg.bind pf = none) :
    load_rows pf mc acc (row :: rest) = load_rows pf mc acc rest := by
  rw [load_rows, if_neg h1, if_pos h2, hlat, hlon]

theorem load_rows_accept_some (pf : String → Option ℝ) (m : ℕ)
    (acc : List (String × AirportRec)) (row : Row) (rest : List Row) (lat_f lon_f : ℝ)
    (h1 : ¬(strUpper (pyStrip (row.iata_code.getD "")) = "" ∨
      (strUpper (pyStrip (row.iata_code.getD ""))).length ≠ 3 ∨
      strUpper (pyStrip (row.iata_code.getD "")) = "\\N"))
    (h2 : pyStrip (row.type.getD "") = "large_airport" ∨
      pyStrip (row.type.getD "") = "medium_airport")
    (hlat : row.latitude_deg.bind pf = some lat_f)
    (hlon : row.longitude_deg.bind pf = some lon_f) :
    load_rows pf (some m) acc (row :: rest) =
      if m ≤ (dictInsert acc (strUpper (pyStrip (row.iata_code.getD "")))
          (rowRecord row lat_f lon_f)).length
      then dictInsert acc (strUpper (pyStrip (row.iata_code.getD "")))
        (rowRecord row lat_f lon_f)
      else load_rows pf (some m) (dictInsert acc
        (strUpper (pyStrip (row.iata_code.getD ""))) (rowRecord row lat_f lon_f)) rest := by
  rw [load_rows, if_neg h1, if_pos h2, hlat, hlon]
  rfl

theorem load_rows_accept_none (pf : String → Option ℝ)
    (acc : List (String × AirportRec)) (row : Row) (rest : List Row) (lat_f lon_f : ℝ)
    (h1 : ¬(strUpper (pyStrip (row.iata_code.getD "")) = "" ∨
      (strUpper (pyStrip (row.iata_code.getD ""))).length ≠ 3 ∨
      strUpper (pyStrip (row.iata_code.getD "")) = "\\N"))
    (h2 : pyStrip (row.type.getD "") = "large_airport" ∨
      pyStrip (row.type.getD "") = "medium_airport")
    (hlat : row.latitude_deg.bind pf = some lat_f)
    (hlon : row.longitude_deg.bind pf = some lon_f) :
    load_rows pf none acc (row :: rest) =
      load_rows pf none (dictInsert acc
        (strUpper (pyStrip (row.iata_code.getD ""))) (rowRecord row lat_f lon_f)) rest := by
  rw [load_rows, if_neg h1, if_pos h2, hlat, hlon]
  rfl

/-! ### Cap, prefix and completeness lemmas for the loader (C2) -/

theorem dictInsert_length_le (m : List (String × AirportRec)) (k : String)
    (v : AirportRec) : (dictInsert m k v).length ≤ m.length + 1 := by
  unfold dictInsert
  by_cases h : m.any (fun p => p.1 == k)
  · rw [if_pos h, List.length_map]
    omega
  · rw [if_neg h, List.length_append]
    simp

theorem load_rows_capped_length (pf : String → Option ℝ) (m : ℕ) :
    ∀ (rows : List Row) (acc : List (String × AirportRec)),
      acc.length < m → (load_rows pf (some m) acc rows).length ≤ m := by
  intro rows
  induction rows with
  | nil =>
    intro acc hacc
    rw [load_rows]
    omega
  | cons row rest ih =>
    intro acc hacc
    by_cases h1 : strUpper (pyStrip (row.iata_code.getD "")) = "" ∨
        (strUpper (pyStrip (row.iata_code.getD ""))).length ≠ 3 ∨
        strUpper (pyStrip (row.iata_code.getD "")) = "\\N"
    · rw [load_rows_skip_iata pf _ acc row rest h1]
      exact ih acc hacc
    · by_cases h2 : pyStrip (row.type.getD "") = "large_airport" ∨
          pyStrip (row.type.getD "") = "medium_airport"
      · cases hlat : row.latitude_deg.bind pf with
        | none =>
          rw [load_rows_skip_lat pf _ acc row rest h1 h2 hlat]
          exact ih acc hacc
        | some lat_f =>
          cases hlon : row.longitude_deg.bind pf with
          | none =>
            rw [load_rows_skip_lon pf _ acc row rest lat_f h1 h2 hlat hlon]
            exact ih acc hacc
          | some lon_f =>
            rw [load_rows_accept_some pf m acc row rest lat_f lon_f h1 h2 hlat hlon]
            have hlen := dictInsert_length_le acc
              (strUpper (pyStrip (row.iata_code.getD ""))) (rowRecord row lat_f lon_f)
            by_cases hm : m ≤ (dictInsert acc
                (strUpper (pyStrip (row.iata_code.getD "")))
                (rowRecord row lat_f lon_f)).length
            · rw [if_pos hm]
              omega
            · rw [if_neg hm]
              exact ih _ (by omega)
      · rw [load_rows_skip_type pf _ acc row rest h1 h2]
        exact ih acc hacc

theorem load_rows_capped_prefix (pf : String → Option ℝ) (m : ℕ) :
    ∀ (rows : List Row) (acc : List (String × AirportRec)),
      ∃ p s, rows = p ++ s ∧
        load_rows pf (some m) acc rows = load_rows pf none acc p := by
  intro rows
  induction rows with
  | nil =>
    intro acc
    exact ⟨[], [], rfl, rfl⟩
  | cons row rest ih =>
    intro acc
    by_cases h1 : strUpper (pyStrip (row.iata_code.getD "")) = "" ∨
        (strUpper (pyStrip (row.iata_code.getD ""))).length ≠ 3 ∨
        strUpper (pyStrip (row.iata_code.getD "")) = "\\N"
    · obtain ⟨p, s, hps, heq⟩ := ih acc
      refine ⟨row :: p, s, by rw [List.cons_append, hps], ?_⟩
      rw [load_rows_skip_iata pf _ acc row rest h1,
        load_rows_skip_iata pf _ acc row p h1, heq]
    · by_cases h2 : pyStrip (row.type.getD "") = "large_airport" ∨
          pyStrip (row.type.getD "") = "medium_airport"
      · cases hlat : row.latitude_deg.bind pf with
        | none =>
          obtain ⟨p, s, hps, heq⟩ := ih acc
          refine ⟨row :: p, s, by rw [List.cons_append, hps], ?_⟩
          rw [load_rows_skip_lat pf _ acc row rest h1 h2 hlat,
            load_rows_skip_lat pf _ acc row p h1 h2 hlat, heq]
        | some lat_f =>
          cases hlon : row.longitude_deg.bind pf with
          | none =>
            obtain ⟨p, s, hps, heq⟩ := ih acc
            refine ⟨row :: p, s, by rw [List.cons_append, hps], ?_⟩
            rw [load_rows_skip_lon pf _ acc row rest lat_f h1 h2 hlat hlon,
              load_rows_skip_lon pf _ acc row p lat_f h1 h2 hlat hlon, heq]
          | some lon_f =>
            by_cases hm : m ≤ (dictInsert acc
                (strUpper (pyStrip (row.iata_code.getD "")))
                (rowRecord row lat_f lon_f)).length
            · refine ⟨[row], rest, rfl, ?_⟩
              rw [load_rows_accept_some pf m acc row rest lat_f lon_f h1 h2 hlat hlon,
                if_pos hm,
                load_rows_accept_none pf acc row [] lat_f lon_f h1 h2 hlat hlon,
                load_rows]
            · obtain ⟨p, s, hps, heq⟩ := ih (dictInsert acc
                (strUpper (pyStrip (row.iata_code.getD ""))) (rowRecord row lat_f lon_f))
              refine ⟨row :: p, s, by rw [List.cons_append, hps], ?_⟩
              rw [load_rows_accept_some pf m acc row rest lat_f lon_f h1 h2 hlat hlon,
                if_neg hm,
                load_rows_accept_none pf acc row p lat_f lon_f h1 h2 hlat hlon, heq]
      · obtain ⟨p, s, hps, heq⟩ := ih acc
        refine ⟨row :: p, s, by rw [List.cons_append, hps], ?_⟩
        rw [load_rows_skip_type pf _ acc row rest h1 h2,
          load_rows_skip_type pf _ acc row p h1 h2, heq]

/-- A row that survives all loader guards (for a given float parser). -/
def rowAccepted (pf : String → Option ℝ) (row : Row) : Prop :=
  ¬(strUpper (pyStrip (row.iata_code.getD "")) = "" ∨
    (strUpper (pyStrip (row.iata_code.getD ""))).length ≠ 3 ∨
    strUpper (pyStrip (row.iata_code.getD "")) = "\\N") ∧
  (pyStrip (row.type.getD "") = "large_airport" ∨
   pyStrip (row.type.getD "") = "medium_airport") ∧
  (row.latitude_deg.bind pf).isSome ∧ (row.longitude_deg.bind pf).isSome

theorem keys_dictInsert_self (m : List (String × AirportRec)) (k : String)
    (v : AirportRec) : k ∈ (dictInsert m k v).map Prod.fst := by
  unfold dictInsert
  by_cases h : m.any (fun p => p.1 == k)
  · rw [if_pos h]
    obtain ⟨p, hp, hpk⟩ := List.any_eq_true.mp h
    have hmem : (k, v) ∈ m.map (fun p => if p.1 == k then (k, v) else p) :=
      List.mem_map.mpr ⟨p, hp, by rw [if_pos hpk]⟩
    exact List.mem_map.mpr ⟨(k, v), hmem, rfl⟩
  · rw [if_neg h, List.map_append]
    simp

theorem keys_dictInsert_mono {m : List (String × AirportRec)} {k a : String}
    {v : AirportRec} (ha : a ∈ m.map Prod.fst) :
    a ∈ (dictInsert m k v).map Prod.fst := by
  unfold dictInsert
  by_cases h : m.any (fun p => p.1 == k)
  · rw [if_pos h]
    obtain ⟨p, hp, hpa⟩ := List.mem_map.mp ha
    by_cases hpk : p.1 == k
    · refine List.mem_map.mpr ⟨(k, v), List.mem_map.mpr ⟨p, hp, by rw [if_pos hpk]⟩, ?_⟩
      rw [← hpa]
      exact (eq_of_beq hpk).symm
    · exact List.mem_map.mpr ⟨if p.1 == k then (k, v) else p,
        List.mem_map.mpr ⟨p, hp, rfl⟩, by rw [if_neg hpk]; exact hpa⟩
  · rw [if_neg h, List.map_append]
    exact List.mem_append.mpr (Or.inl ha)

theorem load_rows_keys_mono (pf : String → Option ℝ) :
    ∀ (rows : List Row) (acc : List (String × AirportRec)) (a : String),
      a ∈ acc.map Prod.fst → a ∈ (load_rows pf none acc rows).map Prod.fst := by
  intro rows
  induction rows with
  | nil =>
    intro acc a ha
    rw [load_rows]
    exact ha
  | cons row rest ih =>
    intro acc a ha
    by_cases h1 : strUpper (pyStrip (row.iata_code.getD "")) = "" ∨
        (strUpper (pyStrip (row.iata_code.getD ""))).length ≠ 3 ∨
        strUpper (pyStrip (row.iata_code.getD "")) = "\\N"
    · rw [load_rows_skip_iata pf _ acc row rest h1]
      exact ih acc a ha
    · by_cases h2 : pyStrip (row.type.getD "") = "large_airport" ∨
          pyStrip (row.type.getD "") = "medium_airport"
      · cases hlat : row.latitude_deg.bind pf with
        | none =>
          rw [load_rows_skip_lat pf _ acc row rest h1 h2 hlat]
          exact ih acc a ha
        | some lat_f =>
          cases hlon : row.longitude_deg.bind pf with
          | none =>
            rw [load_rows_skip_lon pf _ acc row rest lat_f h1 h2 hlat hlon]
            exact ih acc a ha
          | some lon_f =>
            rw [load_rows_accept_none pf acc row rest lat_f lon_f h1 h2 hlat hlon]
            exact ih _ a (keys_dictInsert_mono ha)
      · rw [load_rows_skip_type pf _ acc row rest h1 h2]
        exact ih acc a ha

theorem load_rows_complete (pf : String → Option ℝ) :
    ∀ (rows : List Row) (acc : List (String × AirportRec)) (row : Row),
      row ∈ rows → rowAccepted pf row →
      strUpper (pyStrip (row.iata_code.getD "")) ∈
        (load_rows pf none acc rows).map Prod.fst := by
  intro rows
  induction rows with
  | nil =>
    intro acc row hrow
    exact absurd hrow (List.not_mem_nil _)
  | cons row0 rest ih =>
    intro acc row hrow hacc
    rcases List.mem_cons.mp hrow with rfl | hmem
    · obtain ⟨h1, h2, hlat, hlon⟩ := hacc
      obtain ⟨lat_f, hlat'⟩ := Option.isSome_iff_exists.mp hlat
      obtain ⟨lon_f, hlon'⟩ := Option.isSome_iff_exists.mp hlon
      rw [load_rows_accept_none pf acc row rest lat_f lon_f h1 h2 hlat' hlon']
      exact load_rows_keys_mono pf rest _ _ (keys_dictInsert_self _ _ _)
    · by_cases h1 : strUpper (pyStrip (row0.iata_code.getD "")) = "" ∨
          (strUpper (pyStrip (row0.iata_code.getD ""))).length ≠ 3 ∨
          strUpper (pyStrip (row0.iata_code.getD "")) = "\\N"
      · rw [load_rows_skip_iata pf _ acc row0 rest h1]
        exact ih acc row hmem hacc
      · by_cases h2 : pyStrip (row0.type.getD "") = "large_airport" ∨
            pyStrip (row0.type.getD "") = "medium_airport"
        · cases hlat : row0.latitude_deg.bind pf with
          | none =>
            rw [load_rows_skip_lat pf _ acc row0 rest h1 h2 hlat]
            exact ih acc row hmem hacc
          | some lat_f =>
            cases hlon : row0.longitude_deg.bind pf with
            | none =>
              rw [load_rows_skip_lon pf _ acc row0 rest lat_f h1 h2 hlat hlon]
              exact ih acc row hmem hacc
            | some lon_f =>
              rw [load_rows_accept_none pf acc row0 rest lat_f lon_f h1 h2 hlat hlon]
              exact ih _ row hmem hacc
        · rw [load_rows_skip_type pf _ acc row0 rest h1 h2]
          exact ih acc row hmem hacc

/-! ### C2 -/

/-- C2 counterexample: with `maxCount = 0` supplied, the loader still stores
the first matching row before checking the cap, so it returns 1 record — more
than `maxCount`. -/
theorem load_maxCount_zero_counterexample :
    ¬ ((load_airports_from_ourairports (fun _ => some 0)
        (some [⟨some "JFK", some "large_airport", some "JFK Intl",
          some "40", some "-73", some "US", some "New York"⟩]) (some 0)).length ≤ 0) := by
  intro hcontra
  rw [show load_airports_from_ourairports (fun _ => some (0 : ℝ))
      (some [⟨some "JFK", some "large_airport", some "JFK Intl",
        some "40", some "-73", some "US", some "New York"⟩]) (some 0) =
      [("JFK", (⟨"JFK Intl", "New York", "US", 0, 0⟩ : AirportRec))] from rfl] at hcontra
  exact absurd hcontra (by simp)

/-- C2 (amended to `maxCount ≥ 1`): with a cap of at least 1 the result has at
most `maxCount` records and equals the uncapped load of some prefix of the
stream (first-seen order); with no cap, every accepted row's key is present in
the result. -/
theorem load_maxCount_spec (pf : String → Option ℝ) (rows : List Row) (m : ℕ)
    (hm : 1 ≤ m) :
    (load_airports_from_ourairports pf (some rows) (some m)).length ≤ m ∧
    (∃ p s, rows = p ++ s ∧
      load_airports_from_ourairports pf (some rows) (some m) =
        load_airports_from_ourairports pf (some p) none) ∧
    ∀ row ∈ rows, rowAccepted pf row →
      strUpper (pyStrip (row.iata_code.getD "")) ∈
        (load_airports_from_ourairports pf (some rows) none).map Prod.fst := by
  refine ⟨?_, ?_, ?_⟩
  · exact load_rows_capped_length pf m rows [] (by simpa using hm)
  · obtain ⟨p, s, hps, heq⟩ := load_rows_capped_prefix pf m rows []
    exact ⟨p, s, hps, heq⟩
  · intro row hrow hacc
    exact load_rows_complete pf rows [] row hrow hacc

theorem load_maxCount_spec_witness :
    1 ≤ 1 ∧
    ((load_airports_from_ourairports (fun _ => some (0 : ℝ))
        (some [⟨some "JFK", some "large_airport", some "JFK Intl",
          some "40", some "-73", some "US", some "New York"⟩]) (some 1)).length ≤ 1 ∧
     (∃ p s, [(⟨some "JFK", some "large_airport", some "JFK Intl",
          some "40", some "-73", some "US", some "New York"⟩ : Row)] = p ++ s ∧
       load_airports_from_ourairports (fun _ => some (0 : ℝ))
          (some [⟨some "JFK", some "large_airport", some "JFK Intl",
            some "40", some "-73", some "US", some "New York"⟩]) (some 1) =
         load_airports_from_ourairports (fun _ => some (0 : ℝ)) (some p) none) ∧
     ∀ row ∈ [(⟨some "JFK", some "large_airport", some "JFK Intl",
          some "40", some "-73", some "US", some "New York"⟩ : Row)],
       rowAccepted (fun _ => some (0 : ℝ)) row →
       strUpper (pyStrip (row.iata_code.getD "")) ∈
         (load_airports_from_ourairports (fun _ => some (0 : ℝ))
            (some [⟨some "JFK", some "large_airport", some "JFK Intl",
              some "40", some "-73", some "US", some "New York"⟩]) none).map Prod.fst) :=
  ⟨le_refl 1, load_maxCount_spec (fun _ => some 0) _ 1 (le_refl 1)⟩

/-! ### Nearest-neighbour path (C1) -/

theorem length_le_filter_ne (iata : String) :
    ∀ (l : List (String × AirportRec)), (l.map Prod.fst).Nodup →
      l.length ≤ (l.filter (fun p => p.1 ≠ iata)).length + 1 := by
  intro l
  induction l with
  | nil => simp
  | cons p rest ih =>
    intro hnd
    rw [List.map_cons, List.nodup_cons] at hnd
    by_cases hp : p.1 = iata
    · have hrest : rest.filter (fun q => q.1 ≠ iata) = rest := by
        rw [List.filter_eq_self]
        intro q hq
        simp only [decide_eq_true_eq]
        intro hqe
        exact hnd.1 (by
          rw [hp, ← hqe]
          exact List.mem_map.mpr ⟨q, hq, rfl⟩)
      rw [List.filter_cons_of_neg (by simp [hp]), hrest, List.length_cons]
    · rw [List.filter_cons_of_pos (by simp [hp]), List.length_cons, List.length_cons]
      have := ih hnd.2
      omega

/-- C1: for a registry code with no surviving static route entries, a registry
of at least 9 airports (with the dict invariant of distinct keys) and no
distance cap, `GET /routes/{iata}` returns exactly 8 connections, none of them
the source itself, with pairwise-distinct codes, ordered by non-decreasing
haversine distance from the source's coordinates. -/
theorem get_routes_nearest (airports : List (String × AirportRec)) (iata : String)
    (src : AirportRec)
    (hnd : (airports.map Prod.fst).Nodup)
    (hup : strUpper iata = iata)
    (hsrc : airports.lookup iata = some src)
    (hstatic : ((ROUTES.lookup iata).getD []).filter
      (fun c => (airports.lookup c).isSome) = [])
    (hcard : 9 ≤ airports.length) :
    ∃ conns, get_routes airports iata = some ((iata, src), conns) ∧
      conns.length = 8 ∧
      (∀ e ∈ conns, e.1 ≠ iata) ∧
      (conns.map Prod.fst).Nodup ∧
      conns.Pairwise (fun e₁ e₂ =>
        haversine_km (src.lat, src.lng) (e₁.2.lat, e₁.2.lng) ≤
        haversine_km (src.lat, src.lng) (e₂.2.lat, e₂.2.lng)) := by
  classical
  have hnc : nearest_connections airports iata 8 none =
      (((((airports.filter (fun p => p.1 ≠ iata)).map
        (fun p => (haversine_km (src.lat, src.lng) (p.2.lat, p.2.lng),
          p.1))).insertionSort distLE).take 8).map Prod.snd) := by
    unfold nearest_connections
    rw [hsrc]
    show (((((airports.filter (fun p => p.1 ≠ iata)).map
        (fun p => (haversine_km (src.lat, src.lng) (p.2.lat, p.2.lng),
          p.1))).filter (fun _ => true)).insertionSort distLE).take 8).map Prod.snd = _
    rw [List.filter_true]
  have hgr : get_routes airports iata = some ((iata, src),
      (nearest_connections airports iata 8 none).filterMap (resolve airports)) := by
    unfold get_routes
    rw [hup, hsrc, hstatic]
    rfl
  set L := airports.filter (fun p => p.1 ≠ iata) with hL
  set D := L.map (fun p => (haversine_km (src.lat, src.lng) (p.2.lat, p.2.lng), p.1))
    with hD
  set S := D.insertionSort distLE with hS
  have hLlen : 8 ≤ L.length := by
    have h := length_le_filter_ne iata airports hnd
    rw [← hL] at h
    omega
  have hSlen : S.length = L.length := by
    rw [hS, (List.perm_insertionSort distLE D).length_eq, hD, List.length_map]
  have htakelen : (S.take 8).length = 8 := by
    rw [List.length_take]
    omega
  have hmemS : ∀ x ∈ S, ∃ p, p ∈ airports ∧ p.1 ≠ iata ∧
      x = (haversine_km (src.lat, src.lng) (p.2.lat, p.2.lng), p.1) := by
    intro x hx
    have hxD : x ∈ D := (List.perm_insertionSort distLE D).mem_iff.mp hx
    rw [hD] at hxD
    obtain ⟨p, hpL, hpx⟩ := List.mem_map.mp hxD
    rw [hL] at hpL
    obtain ⟨hpa, hpne⟩ := List.mem_filter.mp hpL
    exact ⟨p, hpa, by simpa using hpne, hpx.symm⟩
  have hlookupS : ∀ x ∈ S, ∃ r, airports.lookup x.2 = some r ∧
      x.1 = haversine_km (src.lat, src.lng) (r.lat, r.lng) := by
    intro x hx
    obtain ⟨p, hpa, hpne, rfl⟩ := hmemS x hx
    exact ⟨p.2, lookup_eq_some_of_mem hnd hpa, rfl⟩
  have hres : ∀ c ∈ (S.take 8).map Prod.snd, (airports.lookup c).isSome := by
    intro c hc
    obtain ⟨x, hx, rfl⟩ := List.mem_map.mp hc
    obtain ⟨r, hr, _⟩ := hlookupS x (List.take_subset _ _ hx)
    rw [hr]
    rfl
  have hkeys : (((S.take 8).map Prod.snd).filterMap (resolve airports)).map Prod.fst =
      (S.take 8).map Prod.snd := map_fst_filterMap_resolve _ _ hres
  refine ⟨((S.take 8).map Prod.snd).filterMap (resolve airports), ?_, ?_, ?_, ?_, ?_⟩
  · rw [hgr, hnc]
  · calc (((S.take 8).map Prod.snd).filterMap (resolve airports)).length
        = ((((S.take 8).map Prod.snd).filterMap (resolve airports)).map Prod.fst).length :=
          (List.length_map _ _).symm
      _ = ((S.take 8).map Prod.snd).length := by rw [hkeys]
      _ = (S.take 8).length := List.length_map _ _
      _ = 8 := htakelen
  · intro e he
    obtain ⟨hc, hl⟩ := mem_filterMap_resolve he
    obtain ⟨x, hx, hxe⟩ := List.mem_map.mp hc
    obtain ⟨p, hpa, hpne, rfl⟩ := hmemS x (List.take_subset _ _ hx)
    rw [← hxe]
    exact hpne
  · rw [hkeys]
    have hsub1 : List.Sublist L airports := List.filter_sublist airports
    have hndLfst : (L.map Prod.fst).Nodup :=
      List.Nodup.sublist (hsub1.map Prod.fst) hnd
    have hpermsnd : (S.map Prod.snd).Perm (L.map Prod.fst) := by
      have h1 : (S.map Prod.snd).Perm (D.map Prod.snd) :=
        (List.perm_insertionSort distLE D).map Prod.snd
      rw [hD, List.map_map] at h1
      exact h1
    have hndSsnd : (S.map Prod.snd).Nodup := hpermsnd.nodup_iff.mpr hndLfst
    exact List.Nodup.sublist ((List.take_sublist 8 S).map Prod.snd) hndSsnd
  · have hsorted : List.Pairwise distLE S := List.sorted_insertionSort distLE D
    have hsortedtake : List.Pairwise distLE (S.take 8) :=
      List.Pairwise.sublist (List.take_sublist 8 S) hsorted
    refine List.pairwise_filterMap.mpr (List.pairwise_map.mpr ?_)
    refine List.Pairwise.imp_of_mem ?_ hsortedtake
    intro x y hx hy hxy
    intro b hb b' hb'
    obtain ⟨r, hr, hx1⟩ := hlookupS x (List.take_subset _ _ hx)
    obtain ⟨r', hr', hy1⟩ := hlookupS y (List.take_subset _ _ hy)
    rw [resolve, hr] at hb
    rw [resolve, hr'] at hb'
    have hbe : b = (x.2, r) := (by simpa using hb : (x.2, r) = b).symm
    have hbe' : b' = (y.2, r') := (by simpa using hb' : (y.2, r') = b').symm
    rw [hbe, hbe']
    rw [← hx1, ← hy1]
    exact hxy

/-- A concrete 9-airport registry (codes absent from `ROUTES`) witnessing the
nearest-neighbour path of the route resolver. -/
noncomputable def nineAirports : List (String × AirportRec) :=
  [("AAA", ⟨"A", "A", "X", 0, 0⟩), ("BBB", ⟨"B", "B", "X", 0, 1⟩),
   ("CCC", ⟨"C", "C", "X", 0, 2⟩), ("DDD", ⟨"D", "D", "X", 0, 3⟩),
   ("EEE", ⟨"E", "E", "X", 0, 4⟩), ("FFF", ⟨"F", "F", "X", 0, 5⟩),
   ("GGG", ⟨"G", "G", "X", 0, 6⟩), ("HHH", ⟨"H", "H", "X", 0, 7⟩),
   ("III", ⟨"I", "I", "X", 0, 8⟩)]

theorem get_routes_nearest_witness :
    ((nineAirports.map Prod.fst).Nodup ∧
     strUpper "AAA" = "AAA" ∧
     nineAirports.lookup "AAA" = some ⟨"A", "A", "X", 0, 0⟩ ∧
     ((ROUTES.lookup "AAA").getD []).filter
       (fun c => (nineAirports.lookup c).isSome) = [] ∧
     9 ≤ nineAirports.length) ∧
    (∃ conns, get_routes nineAirports "AAA" =
        some (("AAA", ⟨"A", "A", "X", 0, 0⟩), conns) ∧
      conns.length = 8 ∧
      (∀ e ∈ conns, e.1 ≠ "AAA") ∧
      (conns.map Prod.fst).Nodup ∧
      conns.Pairwise (fun e₁ e₂ =>
        haversine_km ((⟨"A", "A", "X", 0, 0⟩ : AirportRec).lat,
            (⟨"A", "A", "X", 0, 0⟩ : AirportRec).lng) (e₁.2.lat, e₁.2.lng) ≤
        haversine_km ((⟨"A", "A", "X", 0, 0⟩ : AirportRec).lat,
            (⟨"A", "A", "X", 0, 0⟩ : AirportRec).lng) (e₂.2.lat, e₂.2.lng))) :=
  ⟨⟨by decide, rfl, rfl, rfl, by decide⟩,
   get_routes_nearest nineAirports "AAA" _ (by decide) rfl rfl rfl (by decide)⟩
